import Mathlib

/-!
Verification of the image-compositing core of the `bandung_photobooth`
repository (`src/utils/imageProcessor.ts`): cover-fit drawing, per-region
luminance desaturation, safe image loading, grain and vignette overlays,
and the `composeNewspaper` pipeline.

The embedding models the canvas as a function from integer pixel
coordinates to RGBA pixels with natural-number channels.  Real-number
canvas arithmetic (aspect ratios, scale factors, gradient offsets) is
modelled over `ℚ`; `Math.round` on a nonnegative value is modelled as
`⌊x + 1/2⌋`.
-/

namespace Photobooth

/-- One RGBA pixel as it appears in an `ImageData` buffer: four channel
values (each 0–255 in real buffers, modelled as `ℕ`). -/
structure Pixel where
  r : Nat
  g : Nat
  b : Nat
  a : Nat
deriving DecidableEq, Repr

/-- The mutable canvas pixel store: a pixel for every integer coordinate. -/
abbrev Canvas : Type := Nat → Nat → Pixel

/-- A decoded raster image: dimensions plus its pixel content
(`HTMLImageElement` after a successful load). -/
structure Image where
  width : Nat
  height : Nat
  pix : Nat → Nat → Pixel

/-- A layout rectangle `{x, y, width, height}` in canvas coordinates. -/
structure Rect where
  x : Nat
  y : Nat
  width : Nat
  height : Nat
deriving DecidableEq, Repr

/-- Canvas dimensions from the layout configuration. -/
structure CanvasSize where
  width : Nat
  height : Nat
deriving DecidableEq, Repr

/-- The layout configuration consumed by `composeNewspaper`: canvas size
plus the two photo rectangles. -/
structure Layout where
  canvas : CanvasSize
  photoMain : Rect
  photoSecondary : Rect

/-- Modelled from the spec: `layoutConfig.ts` (the `newspaperLayout`
constant) is imported by `imageProcessor.ts` but is not among the given
source files.  The spec says the configuration supplies "canvas dimensions
and the two named rectangles"; the concrete numbers are taken from the
spec's end-to-end scenario (§8): canvas 2550×3300, primary rectangle
(200,200,2100,1400), secondary rectangle (200,1700,2100,1200). -/
def newspaperLayout : Layout :=
  { canvas := { width := 2550, height := 3300 }
    photoMain := { x := 200, y := 200, width := 2100, height := 1400 }
    photoSecondary := { x := 200, y := 1700, width := 2100, height := 1200 } }

/-- Membership of an integer pixel coordinate in a layout rectangle
(the pixels addressed by `getImageData(x, y, width, height)`). -/
def inRect (rc : Rect) (px py : Nat) : Bool :=
  decide (rc.x ≤ px) && decide (px < rc.x + rc.width) &&
  decide (rc.y ≤ py) && decide (py < rc.y + rc.height)

/-! ### Desaturation (`applyPureBlackAndWhite`) -/

/-- The luminance value `Math.round(0.299*R + 0.587*G + 0.114*B)` computed
for one pixel, in exact integer arithmetic:
`round(S/1000) = (S + 500) / 1000` for the nonnegative weighted sum `S`. -/
def grayOf (p : Pixel) : Nat :=
  (299 * p.r + 587 * p.g + 114 * p.b + 500) / 1000

/-- The per-pixel body of the desaturation loop: all three color channels
are set to the luminance value, the alpha channel is left as is. -/
def grayPixel (p : Pixel) : Pixel :=
  { r := grayOf p, g := grayOf p, b := grayOf p, a := p.a }

/-- `applyPureBlackAndWhite ctx x y width height`: reads the pixel block of
the given rectangle, desaturates every pixel in it, and writes the block
back; pixels outside the rectangle are untouched. -/
def applyPureBlackAndWhite (c : Canvas) (rc : Rect) : Canvas :=
  fun px py => if inRect rc px py then grayPixel (c px py) else c px py

/-! ### Cover-fit geometry (`drawImageCover`) -/

/-- The scale-and-offset numbers computed by `drawImageCover` before it
draws: `drawWidth`, `drawHeight`, `offsetX`, `offsetY`. -/
structure CoverFit where
  drawWidth : ℚ
  drawHeight : ℚ
  offsetX : ℚ
  offsetY : ℚ

/-- The arithmetic part of `drawImageCover`: compares `imgRatio = iw/ih`
with `boxRatio = w/h` and picks the scale that covers the box, with the
excess split evenly (center crop). -/
def drawImageCoverCalc (iw ih w h : ℚ) : CoverFit :=
  if iw / ih > w / h then
    -- image relatively wider than the box: match the box height
    { drawHeight := h
      drawWidth := iw * (h / ih)
      offsetX := (iw * (h / ih) - w) / 2
      offsetY := 0 }
  else
    -- image relatively taller than the box: match the box width
    { drawWidth := w
      drawHeight := ih * (w / iw)
      offsetX := 0
      offsetY := (ih * (w / iw) - h) / 2 }

/-- Whether the pixel cell `[px, px+1] × [py, py+1]` lies inside the region
actually drawn by `ctx.drawImage(img, x - offsetX, y - offsetY, drawWidth,
drawHeight)` (before clipping). -/
def coveredByDraw (img : Image) (rc : Rect) (px py : Nat) : Bool :=
  let f := drawImageCoverCalc img.width img.height rc.width rc.height
  decide ((rc.x : ℚ) - f.offsetX ≤ px) &&
  decide ((px : ℚ) + 1 ≤ (rc.x : ℚ) - f.offsetX + f.drawWidth) &&
  decide ((rc.y : ℚ) - f.offsetY ≤ py) &&
  decide ((py : ℚ) + 1 ≤ (rc.y : ℚ) - f.offsetY + f.drawHeight)

/-- Source pixel sampled at canvas coordinate `(px, py)` by the scaled
`drawImage` call: the inverse of the scaling map, floored to a texel. -/
def coverSample (img : Image) (rc : Rect) (px py : Nat) : Pixel :=
  let f := drawImageCoverCalc img.width img.height rc.width rc.height
  img.pix
    (Int.toNat ⌊((px : ℚ) - ((rc.x : ℚ) - f.offsetX)) * img.width / f.drawWidth⌋)
    (Int.toNat ⌊((py : ℚ) - ((rc.y : ℚ) - f.offsetY)) * img.height / f.drawHeight⌋)

/-- Storing a pixel into a canvas whose 2D context was created with
`{ alpha: false }`: the backing store has no alpha, reads yield 255. -/
def fullAlpha (p : Pixel) : Pixel :=
  { p with a := 255 }

/-- The canvas effect of `drawImageCover`: a pixel changes only when it is
inside the clip rectangle (`ctx.rect(x,y,w,h); ctx.clip()`) and inside the
drawn region; it then receives the sampled photo content. -/
def drawImageCover (c : Canvas) (img : Image) (rc : Rect) : Canvas :=
  fun px py =>
    if inRect rc px py && coveredByDraw img rc px py then
      fullAlpha (coverSample img rc px py)
    else c px py

/-! ### Image loading and the composition pipeline (`composeNewspaper`) -/

/-- The logical path of the background template asset. -/
def frameSrc : String := "/frames/newspaper-a4.png"

/-- `loadImageSafe src`: resolves `src` through the browser's image loader
(modelled as a partial map from sources to decoded images); on failure the
promise rejects with `Failed to load image: ${src.substring(0, 50)}...`. -/
def loadImageSafe (loader : String → Option Image) (src : String) :
    Except String Image :=
  match loader src with
  | some img => Except.ok img
  | none => Except.error ("Failed to load image: " ++ src.take 50 ++ "...")

/-- The finished output artifact: the canvas dimensions and content that
`canvas.toDataURL("image/png", 1.0)` encodes losslessly. -/
structure Composite where
  width : Nat
  height : Nat
  pix : Canvas

/-- Step 1 of the algorithm: `ctx.drawImage(frame, 0, 0, canvas.width,
canvas.height)` stretches the template over the whole canvas; the
`{ alpha: false }` context stores every pixel opaque. -/
def drawBackground (frame : Image) (cw ch : Nat) : Canvas :=
  fun px py => fullAlpha (frame.pix (px * frame.width / cw) (py * frame.height / ch))

/-- The canvas after the photo steps 2–4 of `composeNewspaper`: cover-fit
draw of photo 1 into `photoMain`, desaturate `photoMain`, cover-fit draw of
photo 2 into `photoSecondary`, desaturate `photoSecondary`. -/
def composeCanvasAfterPhotos (L : Layout) (frame img1 img2 : Image) : Canvas :=
  let c0 := drawBackground frame L.canvas.width L.canvas.height
  let c1 := drawImageCover c0 img1 L.photoMain
  let c2 := applyPureBlackAndWhite c1 L.photoMain
  let c3 := drawImageCover c2 img2 L.photoSecondary
  applyPureBlackAndWhite c3 L.photoSecondary

/-- One grain dot: `ctx.fillRect(dx, dy, 1, 1)` with `globalAlpha = 0.08`
and black fill composites `0.92 · c` (rounded) onto the one pixel it hits;
the opaque backing store keeps the stored alpha. -/
def grainDot (c : Canvas) (d : Nat × Nat) : Canvas :=
  fun px py =>
    if px = d.1 && py = d.2 then
      { r := (92 * (c px py).r + 50) / 100
        g := (92 * (c px py).g + 50) / 100
        b := (92 * (c px py).b + 50) / 100
        a := (c px py).a }
    else c px py

/-- Step 5, the grain loop: the 1000 iterations draw 1×1 rectangles at
`Math.random()`-chosen coordinates; the unseeded random draws enter the
model as the explicit list `dots`. -/
def grainStep (dots : List (Nat × Nat)) (c : Canvas) : Canvas :=
  dots.foldl grainDot c

/-- The radial gradient's alpha at normalized offset `t`: linear
interpolation between the stops `rgba(0,0,0,0)` at 0 and `rgba(0,0,0,0.1)`
at 1, clamped outside the stop range. -/
def gradAlphaAt (t : ℚ) : ℚ :=
  min (max t 0) 1 * (1 / 10)

/-- Multiply-compositing a black source of alpha `av` over an opaque
destination channel `v`: the result is `v · (1 − av)`, rounded to the
stored integer channel. -/
def mulBlackChannel (av : ℚ) (v : Nat) : Nat :=
  Int.toNat ⌊(v : ℚ) * (1 - av) + 1 / 2⌋

/-- Step 6, the vignette: fill the whole canvas with the radial gradient
under `globalCompositeOperation = "multiply"`.  The normalized radial
offset of each pixel (its distance from the canvas center divided by the
radius `canvas.width / 1.2`) involves a real square root, so it enters the
model as the explicit function `t`; the gradient stops turn it into the
alpha `gradAlphaAt (t px py)`. -/
def vignetteStep (t : Nat → Nat → ℚ) (c : Canvas) : Canvas :=
  fun px py =>
    { r := mulBlackChannel (gradAlphaAt (t px py)) (c px py).r
      g := mulBlackChannel (gradAlphaAt (t px py)) (c px py).g
      b := mulBlackChannel (gradAlphaAt (t px py)) (c px py).b
      a := (c px py).a }

/-- `composeNewspaper` over an explicit layout: load the three images
(fail-fast), check the 2D context, draw background, cover-fit and
desaturate both photos, add grain and vignette, and encode.  The browser
environment enters as parameters: the image loader, context availability,
the grain loop's random coordinates and the vignette's radial offsets. -/
def composeNewspaperWith (loader : String → Option Image) (ctxOk : Bool)
    (L : Layout) (dots : List (Nat × Nat)) (t : Nat → Nat → ℚ)
    (photo1 photo2 dateText : String) : Except String Composite := do
  let frame ← loadImageSafe loader frameSrc
  let img1 ← loadImageSafe loader photo1
  let img2 ← loadImageSafe loader photo2
  if !ctxOk then
    throw "Canvas context not available"
  let c4 := composeCanvasAfterPhotos L frame img1 img2
  let c5 := grainStep dots c4
  let c6 := vignetteStep t c5
  pure { width := L.canvas.width, height := L.canvas.height, pix := c6 }

/-- `composeNewspaper(photo1, photo2, dateText)` as exported: the layout is
the fixed `newspaperLayout` configuration. -/
def composeNewspaper (loader : String → Option Image) (ctxOk : Bool)
    (dots : List (Nat × Nat)) (t : Nat → Nat → ℚ)
    (photo1 photo2 dateText : String) : Except String Composite :=
  composeNewspaperWith loader ctxOk newspaperLayout dots t photo1 photo2 dateText

/-! ### Concrete test fixtures for evaluating the definitions -/

/-- A small concrete test image. -/
def testImg : Image :=
  { width := 4, height := 2, pix := fun _ _ => { r := 100, g := 150, b := 200, a := 255 } }

/-- A small concrete test layout with disjoint photo rectangles. -/
def testLayout : Layout :=
  { canvas := { width := 10, height := 10 }
    photoMain := { x := 1, y := 1, width := 2, height := 2 }
    photoSecondary := { x := 5, y := 5, width := 2, height := 2 } }

/-- A loader on which every source resolves to `testImg`. -/
def testLoader : String → Option Image := fun _ => some testImg

/-- A loader on which every load fails. -/
def noLoader : String → Option Image := fun _ => none

/-- Trivial radial-offset function for concrete runs. -/
def testOffsets : Nat → Nat → ℚ := fun _ _ => 0

end Photobooth

namespace Photobooth

/-! ### Facts about the luminance formula -/

theorem int_floor_natCast_div (m n : Nat) (hn : 0 < n) :
    ⌊(m : ℚ) / (n : ℚ)⌋ = ((m / n : Nat) : ℤ) := by
  have hn' : (0 : ℚ) < (n : ℚ) := by exact_mod_cast hn
  rw [Int.floor_eq_iff]
  constructor
  · rw [le_div_iff₀ hn']
    exact_mod_cast Nat.div_mul_le_self m n
  · rw [div_lt_iff₀ hn']
    have key : m < (m / n + 1) * n := by
      have hq := Nat.div_add_mod m n
      have hr := Nat.mod_lt m hn
      calc m = n * (m / n) + m % n := hq.symm
        _ < n * (m / n) + n := by omega
        _ = (m / n + 1) * n := by ring
    exact_mod_cast key

theorem round_luminance (r g b : Nat) :
    round ((0.299 : ℚ) * r + 0.587 * g + 0.114 * b) =
      (((299 * r + 587 * g + 114 * b + 500) / 1000 : Nat) : ℤ) := by
  rw [round_eq]
  have h1 : (0.299 : ℚ) * r + 0.587 * g + 0.114 * b + 1 / 2 =
      ((299 * r + 587 * g + 114 * b + 500 : Nat) : ℚ) / ((1000 : Nat) : ℚ) := by
    push_cast
    norm_num
    ring
  rw [h1, int_floor_natCast_div _ _ (by norm_num)]

theorem grayOf_gray (v a : Nat) : grayOf { r := v, g := v, b := v, a := a } = v := by
  unfold grayOf
  simp only
  omega

/-- C1: inside the processed rectangle, `applyPureBlackAndWhite` sets all
three color channels to `gray = round(0.299R + 0.587G + 0.114B)` and leaves
the alpha channel unchanged; in particular red maps to 76, green to 150 and
white to 255. -/
theorem C1_applyPureBlackAndWhite_luminance (c : Canvas) (rc : Rect) (px py : Nat)
    (h : inRect rc px py = true) :
    ((applyPureBlackAndWhite c rc px py).r = grayOf (c px py) ∧
      (applyPureBlackAndWhite c rc px py).g = grayOf (c px py) ∧
      (applyPureBlackAndWhite c rc px py).b = grayOf (c px py) ∧
      (applyPureBlackAndWhite c rc px py).a = (c px py).a) ∧
    ((grayOf (c px py) : ℤ) =
      round ((0.299 : ℚ) * (c px py).r + 0.587 * (c px py).g + 0.114 * (c px py).b)) ∧
    grayOf { r := 255, g := 0, b := 0, a := 255 } = 76 ∧
    grayOf { r := 0, g := 255, b := 0, a := 255 } = 150 ∧
    grayOf { r := 255, g := 255, b := 255, a := 255 } = 255 := by
  refine ⟨?_, ?_, by decide, by decide, by decide⟩
  · simp [applyPureBlackAndWhite, h, grayPixel]
  · rw [round_luminance]
    rfl

theorem C1_witness :
    inRect { x := 0, y := 0, width := 4, height := 4 } 1 2 = true ∧
    (((applyPureBlackAndWhite (fun _ _ => { r := 10, g := 20, b := 30, a := 40 })
          { x := 0, y := 0, width := 4, height := 4 } 1 2).r =
        grayOf { r := 10, g := 20, b := 30, a := 40 } ∧
      (applyPureBlackAndWhite (fun _ _ => { r := 10, g := 20, b := 30, a := 40 })
          { x := 0, y := 0, width := 4, height := 4 } 1 2).g =
        grayOf { r := 10, g := 20, b := 30, a := 40 } ∧
      (applyPureBlackAndWhite (fun _ _ => { r := 10, g := 20, b := 30, a := 40 })
          { x := 0, y := 0, width := 4, height := 4 } 1 2).b =
        grayOf { r := 10, g := 20, b := 30, a := 40 } ∧
      (applyPureBlackAndWhite (fun _ _ => { r := 10, g := 20, b := 30, a := 40 })
          { x := 0, y := 0, width := 4, height := 4 } 1 2).a =
        (40 : Nat)) ∧
    ((grayOf { r := 10, g := 20, b := 30, a := 40 } : ℤ) =
      round ((0.299 : ℚ) * (10 : Nat) + 0.587 * (20 : Nat) + 0.114 * (30 : Nat))) ∧
    grayOf { r := 255, g := 0, b := 0, a := 255 } = 76 ∧
    grayOf { r := 0, g := 255, b := 0, a := 255 } = 150 ∧
    grayOf { r := 255, g := 255, b := 255, a := 255 } = 255) :=
  ⟨by decide,
    C1_applyPureBlackAndWhite_luminance
      (fun _ _ => { r := 10, g := 20, b := 30, a := 40 })
      { x := 0, y := 0, width := 4, height := 4 } 1 2 (by decide)⟩

/-- C10: desaturation is idempotent: `grayPixel` is a retraction (for an
already-gray pixel `round(0.299g + 0.587g + 0.114g) = g`), so running
`applyPureBlackAndWhite` a second time over the same rectangle changes
nothing. -/
theorem C10_applyPureBlackAndWhite_idem (c : Canvas) (rc : Rect) :
    (∀ v a : Nat, grayOf { r := v, g := v, b := v, a := a } = v) ∧
    (∀ p : Pixel, grayPixel (grayPixel p) = grayPixel p) ∧
    applyPureBlackAndWhite (applyPureBlackAndWhite c rc) rc =
      applyPureBlackAndWhite c rc := by
  have hfix : ∀ p : Pixel, grayPixel (grayPixel p) = grayPixel p := by
    intro p
    simp [grayPixel, grayOf_gray]
  refine ⟨fun v a => grayOf_gray v a, hfix, ?_⟩
  funext px py
  by_cases h : inRect rc px py
  · simp [applyPureBlackAndWhite, h, hfix]
  · simp [applyPureBlackAndWhite, h]

/-! ### Facts about the cover-fit geometry -/

theorem coverCalc_spec (iw ih w h : ℚ)
    (hiw : 0 < iw) (hih : 0 < ih) (hw : 0 < w) (hh : 0 < h) :
    w ≤ (drawImageCoverCalc iw ih w h).drawWidth ∧
    h ≤ (drawImageCoverCalc iw ih w h).drawHeight ∧
    (drawImageCoverCalc iw ih w h).offsetX =
      ((drawImageCoverCalc iw ih w h).drawWidth - w) / 2 ∧
    (drawImageCoverCalc iw ih w h).offsetY =
      ((drawImageCoverCalc iw ih w h).drawHeight - h) / 2 := by
  unfold drawImageCoverCalc
  split_ifs with hr
  · have hcross : w * ih < iw * h := by
      rw [gt_iff_lt, div_lt_div_iff₀ hh hih] at hr
      exact hr
    have hdw : w ≤ iw * (h / ih) := by
      rw [mul_div_assoc', le_div_iff₀ hih]
      exact le_of_lt hcross
    refine ⟨hdw, le_refl h, rfl, ?_⟩
    simp
  · have hcross : iw * h ≤ w * ih := by
      rw [gt_iff_lt, not_lt, div_le_div_iff₀ hih hh] at hr
      exact hr
    have hdh : h ≤ ih * (w / iw) := by
      rw [mul_div_assoc', le_div_iff₀ hiw]
      nlinarith
    refine ⟨le_refl w, hdh, ?_, rfl⟩
    simp

/-- C3: for positive image and rectangle dimensions the cover-fit draw
computes `drawWidth ≥ w` and `drawHeight ≥ h`, the centered drawn region
contains every pixel cell of the rectangle, and the clip leaves every pixel
outside the rectangle untouched. -/
theorem C3_drawImageCover_covers (img : Image) (rc : Rect)
    (hiw : 0 < img.width) (hih : 0 < img.height)
    (hw : 0 < rc.width) (hh : 0 < rc.height) :
    ((rc.width : ℚ) ≤
        (drawImageCoverCalc img.width img.height rc.width rc.height).drawWidth ∧
      (rc.height : ℚ) ≤
        (drawImageCoverCalc img.width img.height rc.width rc.height).drawHeight) ∧
    (∀ px py, inRect rc px py = true → coveredByDraw img rc px py = true) ∧
    (∀ c px py, inRect rc px py = false → drawImageCover c img rc px py = c px py) := by
  obtain ⟨hdw, hdh, hox, hoy⟩ :=
    coverCalc_spec (img.width : ℚ) (img.height : ℚ) (rc.width : ℚ) (rc.height : ℚ)
      (by exact_mod_cast hiw) (by exact_mod_cast hih)
      (by exact_mod_cast hw) (by exact_mod_cast hh)
  refine ⟨⟨hdw, hdh⟩, ?_, ?_⟩
  · intro px py hin
    simp only [inRect, Bool.and_eq_true, decide_eq_true_eq] at hin
    obtain ⟨⟨⟨h1, h2⟩, h3⟩, h4⟩ := hin
    have q1 : ((rc.x : ℚ)) ≤ px := by exact_mod_cast h1
    have q2 : (px : ℚ) + 1 ≤ (rc.x : ℚ) + rc.width := by exact_mod_cast h2
    have q3 : ((rc.y : ℚ)) ≤ py := by exact_mod_cast h3
    have q4 : (py : ℚ) + 1 ≤ (rc.y : ℚ) + rc.height := by exact_mod_cast h4
    simp only [coveredByDraw, Bool.and_eq_true, decide_eq_true_eq]
    refine ⟨⟨⟨?_, ?_⟩, ?_⟩, ?_⟩
    · rw [hox]; linarith
    · rw [hox]; linarith
    · rw [hoy]; linarith
    · rw [hoy]; linarith
  · intro c px py hn
    simp [drawImageCover, hn]

theorem C3_witness :
    0 < (4 : Nat) ∧ 0 < (2 : Nat) ∧ 0 < (2 : Nat) ∧ 0 < (3 : Nat) ∧
    ((((2 : Nat) : ℚ) ≤
        (drawImageCoverCalc ((4 : Nat) : ℚ) ((2 : Nat) : ℚ) ((2 : Nat) : ℚ)
          ((3 : Nat) : ℚ)).drawWidth ∧
      (((3 : Nat) : ℚ) ≤
        (drawImageCoverCalc ((4 : Nat) : ℚ) ((2 : Nat) : ℚ) ((2 : Nat) : ℚ)
          ((3 : Nat) : ℚ)).drawHeight)) ∧
    (∀ px py, inRect { x := 1, y := 1, width := 2, height := 3 } px py = true →
      coveredByDraw
        { width := 4, height := 2, pix := fun _ _ => { r := 9, g := 9, b := 9, a := 255 } }
        { x := 1, y := 1, width := 2, height := 3 } px py = true) ∧
    (∀ c px py, inRect { x := 1, y := 1, width := 2, height := 3 } px py = false →
      drawImageCover c
        { width := 4, height := 2, pix := fun _ _ => { r := 9, g := 9, b := 9, a := 255 } }
        { x := 1, y := 1, width := 2, height := 3 } px py = c px py)) :=
  ⟨by decide, by decide, by decide, by decide,
    C3_drawImageCover_covers
      { width := 4, height := 2, pix := fun _ _ => { r := 9, g := 9, b := 9, a := 255 } }
      { x := 1, y := 1, width := 2, height := 3 }
      (by decide) (by decide) (by decide) (by decide)⟩

/-- C6: the cover-fit scale is selected by the aspect-ratio comparison:
when the image is relatively wider (`iw/ih > w/h`, i.e. `w·ih < iw·h`) it
is scaled to the rectangle height (`drawHeight = h`,
`drawWidth·ih = iw·h`) and the horizontal excess is center-cropped;
otherwise it is scaled to the rectangle width (`drawWidth = w`,
`drawHeight·iw = ih·w`) and the vertical excess is center-cropped. -/
theorem C6_drawImageCoverCalc_branches (iw ih w h : ℚ)
    (hiw : 0 < iw) (hih : 0 < ih) (hw : 0 < w) (hh : 0 < h) :
    (w * ih < iw * h →
      (drawImageCoverCalc iw ih w h).drawHeight = h ∧
      (drawImageCoverCalc iw ih w h).drawWidth * ih = iw * h ∧
      (drawImageCoverCalc iw ih w h).offsetY = 0 ∧
      (drawImageCoverCalc iw ih w h).offsetX =
        ((drawImageCoverCalc iw ih w h).drawWidth - w) / 2) ∧
    (iw * h ≤ w * ih →
      (drawImageCoverCalc iw ih w h).drawWidth = w ∧
      (drawImageCoverCalc iw ih w h).drawHeight * iw = ih * w ∧
      (drawImageCoverCalc iw ih w h).offsetX = 0 ∧
      (drawImageCoverCalc iw ih w h).offsetY =
        ((drawImageCoverCalc iw ih w h).drawHeight - h) / 2) := by
  unfold drawImageCoverCalc
  split_ifs with hr
  · have hcross : w * ih < iw * h := by
      rw [gt_iff_lt, div_lt_div_iff₀ hh hih] at hr
      exact hr
    constructor
    · intro _
      refine ⟨rfl, ?_, rfl, rfl⟩
      field_simp
    · intro hle
      exact absurd hcross (not_lt.mpr hle)
  · have hcross : iw * h ≤ w * ih := by
      rw [gt_iff_lt, not_lt, div_le_div_iff₀ hih hh] at hr
      exact hr
    constructor
    · intro hlt
      exact absurd hlt (not_lt.mpr hcross)
    · intro _
      refine ⟨rfl, ?_, rfl, rfl⟩
      field_simp

theorem C6_witness :
    (0 : ℚ) < 4 ∧ (0 : ℚ) < 2 ∧ (0 : ℚ) < 2 ∧ (0 : ℚ) < 3 ∧
    (((2 : ℚ) * 2 < 4 * 3 →
      (drawImageCoverCalc 4 2 2 3).drawHeight = 3 ∧
      (drawImageCoverCalc 4 2 2 3).drawWidth * 2 = 4 * 3 ∧
      (drawImageCoverCalc 4 2 2 3).offsetY = 0 ∧
      (drawImageCoverCalc 4 2 2 3).offsetX =
        ((drawImageCoverCalc 4 2 2 3).drawWidth - 2) / 2) ∧
    ((4 : ℚ) * 3 ≤ 2 * 2 →
      (drawImageCoverCalc 4 2 2 3).drawWidth = 2 ∧
      (drawImageCoverCalc 4 2 2 3).drawHeight * 4 = 2 * 2 ∧
      (drawImageCoverCalc 4 2 2 3).offsetX = 0 ∧
      (drawImageCoverCalc 4 2 2 3).offsetY =
        ((drawImageCoverCalc 4 2 2 3).drawHeight - 3) / 2)) :=
  ⟨by norm_num, by norm_num, by norm_num, by norm_num,
    C6_drawImageCoverCalc_branches 4 2 2 3
      (by norm_num) (by norm_num) (by norm_num) (by norm_num)⟩

/-! ### Frame effect of the photo steps -/

/-- C4: each desaturation touches only its own rectangle: after both photo
steps every pixel strictly outside both rectangles still holds its
background-draw value, and every pixel inside a photo rectangle has
`R = G = B`. -/
theorem C4_photo_steps_frame_effect (L : Layout) (frame img1 img2 : Image)
    (px py : Nat) :
    (inRect L.photoMain px py = false → inRect L.photoSecondary px py = false →
      composeCanvasAfterPhotos L frame img1 img2 px py =
        drawBackground frame L.canvas.width L.canvas.height px py) ∧
    (inRect L.photoMain px py = true ∨ inRect L.photoSecondary px py = true →
      (composeCanvasAfterPhotos L frame img1 img2 px py).r =
        (composeCanvasAfterPhotos L frame img1 img2 px py).g ∧
      (composeCanvasAfterPhotos L frame img1 img2 px py).g =
        (composeCanvasAfterPhotos L frame img1 img2 px py).b) := by
  constructor
  · intro hm hs
    simp [composeCanvasAfterPhotos, applyPureBlackAndWhite, drawImageCover, hm, hs]
  · intro hin
    by_cases hs : inRect L.photoSecondary px py
    · simp [composeCanvasAfterPhotos, applyPureBlackAndWhite, hs, grayPixel]
    · have hm : inRect L.photoMain px py = true := by
        rcases hin with h | h
        · exact h
        · exact absurd h hs
      simp [composeCanvasAfterPhotos, applyPureBlackAndWhite, drawImageCover,
        hm, hs, grayPixel]

theorem C4_witness :
    (inRect testLayout.photoMain 0 0 = false ∧
      inRect testLayout.photoSecondary 0 0 = false ∧
      composeCanvasAfterPhotos testLayout testImg testImg testImg 0 0 =
        drawBackground testImg testLayout.canvas.width testLayout.canvas.height 0 0) ∧
    (inRect testLayout.photoMain 1 1 = true ∧
      (composeCanvasAfterPhotos testLayout testImg testImg testImg 1 1).r =
        (composeCanvasAfterPhotos testLayout testImg testImg testImg 1 1).g ∧
      (composeCanvasAfterPhotos testLayout testImg testImg testImg 1 1).g =
        (composeCanvasAfterPhotos testLayout testImg testImg testImg 1 1).b) :=
  ⟨⟨by decide, by decide,
      (C4_photo_steps_frame_effect testLayout testImg testImg testImg 0 0).1
        (by decide) (by decide)⟩,
    by decide,
    ((C4_photo_steps_frame_effect testLayout testImg testImg testImg 1 1).2
      (Or.inl (by decide))).1,
    ((C4_photo_steps_frame_effect testLayout testImg testImg testImg 1 1).2
      (Or.inl (by decide))).2⟩

/-! ### Alpha invariant and output dimensions -/

theorem applyPBW_alpha (c : Canvas) (rc : Rect) (px py : Nat) :
    (applyPureBlackAndWhite c rc px py).a = (c px py).a := by
  unfold applyPureBlackAndWhite
  split_ifs <;> simp [grayPixel]

theorem drawImageCover_alpha (c : Canvas) (img : Image) (rc : Rect) (px py : Nat)
    (h : (c px py).a = 255) : (drawImageCover c img rc px py).a = 255 := by
  unfold drawImageCover
  split_ifs <;> simp [fullAlpha, h]

theorem afterPhotos_alpha (L : Layout) (frame img1 img2 : Image) (px py : Nat) :
    (composeCanvasAfterPhotos L frame img1 img2 px py).a = 255 := by
  unfold composeCanvasAfterPhotos
  rw [applyPBW_alpha]
  apply drawImageCover_alpha
  rw [applyPBW_alpha]
  apply drawImageCover_alpha
  rfl

theorem grainDot_alpha (c : Canvas) (d : Nat × Nat) (px py : Nat) :
    (grainDot c d px py).a = (c px py).a := by
  unfold grainDot
  split_ifs <;> rfl

theorem grainStep_alpha (dots : List (Nat × Nat)) (c : Canvas) (px py : Nat) :
    (grainStep dots c px py).a = (c px py).a := by
  induction dots generalizing c with
  | nil => rfl
  | cons hd tl ih =>
    show (grainStep tl (grainDot c hd) px py).a = (c px py).a
    rw [ih (grainDot c hd), grainDot_alpha]

/-- C5: a successful composition returns an artifact whose dimensions are
exactly the configured canvas width and height, with every pixel fully
opaque. -/
theorem C5_output_dimensions_opaque (loader : String → Option Image) (ctxOk : Bool)
    (L : Layout) (dots : List (Nat × Nat)) (t : Nat → Nat → ℚ)
    (photo1 photo2 dateText : String) (out : Composite)
    (hok : composeNewspaperWith loader ctxOk L dots t photo1 photo2 dateText =
      Except.ok out) :
    out.width = L.canvas.width ∧ out.height = L.canvas.height ∧
    ∀ px py, (out.pix px py).a = 255 := by
  unfold composeNewspaperWith loadImageSafe at hok
  rcases hF : loader frameSrc with _ | f <;> rw [hF] at hok
  · simp [Bind.bind, Except.bind] at hok
  · rcases h1 : loader photo1 with _ | i1 <;> rw [h1] at hok
    · simp [Bind.bind, Except.bind] at hok
    · rcases h2 : loader photo2 with _ | i2 <;> rw [h2] at hok
      · simp [Bind.bind, Except.bind] at hok
      · cases ctxOk with
        | false =>
          simp [Bind.bind, Except.bind, throw, throwThe, MonadExceptOf.throw] at hok
        | true =>
          simp only [Bind.bind, Except.bind, Bool.not_true, Bool.false_eq_true,
            if_false, pure, Except.pure, Except.ok.injEq] at hok
          subst hok
          refine ⟨rfl, rfl, ?_⟩
          intro px py
          show (grainStep dots (composeCanvasAfterPhotos L f i1 i2) px py).a = 255
          rw [grainStep_alpha]
          exact afterPhotos_alpha L f i1 i2 px py

theorem C5_witness :
    ({ width := 10, height := 10,
        pix := vignetteStep testOffsets
          (grainStep [] (composeCanvasAfterPhotos testLayout testImg testImg testImg)) :
        Composite }).width = testLayout.canvas.width ∧
    ({ width := 10, height := 10,
        pix := vignetteStep testOffsets
          (grainStep [] (composeCanvasAfterPhotos testLayout testImg testImg testImg)) :
        Composite }).height = testLayout.canvas.height ∧
    ∀ px py,
      (({ width := 10, height := 10,
          pix := vignetteStep testOffsets
            (grainStep [] (composeCanvasAfterPhotos testLayout testImg testImg testImg)) :
          Composite }).pix px py).a = 255 :=
  C5_output_dimensions_opaque testLoader true testLayout [] testOffsets "a" "b" "d"
    { width := 10, height := 10,
      pix := vignetteStep testOffsets
        (grainStep [] (composeCanvasAfterPhotos testLayout testImg testImg testImg)) }
    rfl

/-! ### Vignette -/

theorem gradAlphaAt_bounds (t : ℚ) : 0 ≤ gradAlphaAt t ∧ gradAlphaAt t ≤ 1 / 10 := by
  unfold gradAlphaAt
  constructor
  · have h0 : (0 : ℚ) ≤ min (max t 0) 1 := le_min (le_max_right t 0) (by norm_num)
    nlinarith
  · have h1 : min (max t 0) 1 ≤ 1 := min_le_right _ _
    nlinarith

theorem mulBlackChannel_le (av : ℚ) (hav : 0 ≤ av) (v : Nat) :
    mulBlackChannel av v ≤ v := by
  unfold mulBlackChannel
  have hmul : (v : ℚ) * (1 - av) + 1 / 2 ≤ (v : ℚ) + 1 / 2 := by
    have hv : (0 : ℚ) ≤ (v : ℚ) := Nat.cast_nonneg v
    nlinarith
  have hfl : ⌊(v : ℚ) * (1 - av) + 1 / 2⌋ ≤ ⌊(v : ℚ) + 1 / 2⌋ :=
    Int.floor_le_floor hmul
  have hv2 : ⌊(v : ℚ) + 1 / 2⌋ = (v : ℤ) := by
    rw [Int.floor_eq_iff]
    constructor
    · push_cast
      linarith
    · push_cast
      linarith
  rw [hv2] at hfl
  exact Int.toNat_le.mpr hfl

/-- C9: the vignette step only darkens: the radial-gradient alpha lies in
`[0, 0.1]` at every pixel, and multiply-compositing it leaves each color
channel no larger than before, with alpha unchanged. -/
theorem C9_vignette_only_darkens (t : Nat → Nat → ℚ) (c : Canvas) (px py : Nat) :
    (0 ≤ gradAlphaAt (t px py) ∧ gradAlphaAt (t px py) ≤ 1 / 10) ∧
    (vignetteStep t c px py).r ≤ (c px py).r ∧
    (vignetteStep t c px py).g ≤ (c px py).g ∧
    (vignetteStep t c px py).b ≤ (c px py).b ∧
    (vignetteStep t c px py).a = (c px py).a := by
  obtain ⟨h0, h1⟩ := gradAlphaAt_bounds (t px py)
  exact ⟨⟨h0, h1⟩,
    mulBlackChannel_le _ h0 _,
    mulBlackChannel_le _ h0 _,
    mulBlackChannel_le _ h0 _,
    rfl⟩

/-! ### The date parameter is never drawn -/

/-- C8: the `dateText` argument has no effect on the output: the pipeline
performs identical operations for any two date strings. -/
theorem C8_dateText_unused (loader : String → Option Image) (ctxOk : Bool)
    (dots : List (Nat × Nat)) (t : Nat → Nat → ℚ) (photo1 photo2 d1 d2 : String) :
    composeNewspaper loader ctxOk dots t photo1 photo2 d1 =
      composeNewspaper loader ctxOk dots t photo1 photo2 d2 := rfl

/-! ### Determinism outside the grain dots -/

theorem grainDot_not_hit (c : Canvas) (d : Nat × Nat) (px py : Nat)
    (h : (px, py) ≠ d) : grainDot c d px py = c px py := by
  unfold grainDot
  have hcond : ¬(px = d.1 ∧ py = d.2) := by
    rintro ⟨e1, e2⟩
    exact h (Prod.ext e1 e2)
  by_cases h1 : px = d.1
  · by_cases h2 : py = d.2
    · exact absurd ⟨h1, h2⟩ hcond
    · simp [h1, h2]
  · simp [h1]

theorem grainStep_not_hit (dots : List (Nat × Nat)) (c : Canvas) (px py : Nat)
    (h : (px, py) ∉ dots) : grainStep dots c px py = c px py := by
  induction dots generalizing c with
  | nil => rfl
  | cons hd tl ih =>
    rw [List.mem_cons] at h
    push_neg at h
    obtain ⟨hne, hnm⟩ := h
    show grainStep tl (grainDot c hd) px py = c px py
    rw [ih (grainDot c hd) hnm]
    exact grainDot_not_hit c hd px py hne

/-- C7: two runs differing only in the grain randomness agree everywhere
the grain dots of either run do not land: with the same loadable images,
both runs succeed or fail identically, and on success the outputs have the
same dimensions and identical pixels at every coordinate hit by neither
run's dot list. -/
theorem C7_deterministic_outside_grain (loader : String → Option Image)
    (ctxOk : Bool) (t : Nat → Nat → ℚ) (photo1 photo2 dateText : String)
    (dots1 dots2 : List (Nat × Nat)) (px py : Nat)
    (h1 : (px, py) ∉ dots1) (h2 : (px, py) ∉ dots2) :
    (composeNewspaper loader ctxOk dots1 t photo1 photo2 dateText).map
        (fun o => (o.width, o.height, o.pix px py)) =
      (composeNewspaper loader ctxOk dots2 t photo1 photo2 dateText).map
        (fun o => (o.width, o.height, o.pix px py)) := by
  unfold composeNewspaper composeNewspaperWith loadImageSafe
  rcases hF : loader frameSrc with _ | f
  · rfl
  · rcases hp1 : loader photo1 with _ | i1
    · rfl
    · rcases hp2 : loader photo2 with _ | i2
      · rfl
      · cases ctxOk with
        | false => rfl
        | true =>
          simp only [Bind.bind, Except.bind, Bool.not_true, Bool.false_eq_true,
            if_false, pure, Except.pure, Except.map]
          have hg : grainStep dots1 (composeCanvasAfterPhotos newspaperLayout f i1 i2) px py =
              grainStep dots2 (composeCanvasAfterPhotos newspaperLayout f i1 i2) px py := by
            rw [grainStep_not_hit _ _ _ _ h1, grainStep_not_hit _ _ _ _ h2]
          show Except.ok (_, _, vignetteStep t (grainStep dots1 _) px py) =
            Except.ok (_, _, vignetteStep t (grainStep dots2 _) px py)
          unfold vignetteStep
          rw [hg]

theorem C7_witness :
    ((5 : Nat), (5 : Nat)) ∉ [((0 : Nat), (1 : Nat))] ∧
    ((5 : Nat), (5 : Nat)) ∉ ([] : List (Nat × Nat)) ∧
    (composeNewspaper testLoader true [(0, 1)] testOffsets "a" "b" "d").map
        (fun o => (o.width, o.height, o.pix 5 5)) =
      (composeNewspaper testLoader true [] testOffsets "a" "b" "d").map
        (fun o => (o.width, o.height, o.pix 5 5)) :=
  ⟨by decide, by decide,
    C7_deterministic_outside_grain testLoader true testOffsets "a" "b" "d"
      [(0, 1)] [] 5 5 (by decide) (by decide)⟩

/-! ### Fail-fast loading -/

/-- C2: if any of the three image loads fails, `composeNewspaper` fails
with the single descriptive error naming the failed asset's source, and
returns no output artifact. -/
theorem C2_load_failure_fails (loader : String → Option Image) (ctxOk : Bool)
    (dots : List (Nat × Nat)) (t : Nat → Nat → ℚ) (photo1 photo2 dateText : String)
    (h : loader frameSrc = none ∨ loader photo1 = none ∨ loader photo2 = none) :
    ∃ s, (s = frameSrc ∨ s = photo1 ∨ s = photo2) ∧ loader s = none ∧
      composeNewspaper loader ctxOk dots t photo1 photo2 dateText =
        Except.error ("Failed to load image: " ++ s.take 50 ++ "...") ∧
      ∀ out, composeNewspaper loader ctxOk dots t photo1 photo2 dateText ≠
        Except.ok out := by
  by_cases hF : loader frameSrc = none
  · have heq : composeNewspaper loader ctxOk dots t photo1 photo2 dateText =
        Except.error ("Failed to load image: " ++ frameSrc.take 50 ++ "...") := by
      unfold composeNewspaper composeNewspaperWith loadImageSafe
      rw [hF]
      rfl
    exact ⟨frameSrc, Or.inl rfl, hF, heq, fun out hc => by
      rw [heq] at hc
      exact Except.noConfusion hc⟩
  · obtain ⟨f, hf⟩ := Option.ne_none_iff_exists'.mp hF
    by_cases hq1 : loader photo1 = none
    · have heq : composeNewspaper loader ctxOk dots t photo1 photo2 dateText =
          Except.error ("Failed to load image: " ++ photo1.take 50 ++ "...") := by
        unfold composeNewspaper composeNewspaperWith loadImageSafe
        rw [hf, hq1]
        rfl
      exact ⟨photo1, Or.inr (Or.inl rfl), hq1, heq, fun out hc => by
        rw [heq] at hc
        exact Except.noConfusion hc⟩
    · obtain ⟨i1, hi1⟩ := Option.ne_none_iff_exists'.mp hq1
      have hq2 : loader photo2 = none := by
        rcases h with h | h | h
        · exact absurd h hF
        · exact absurd h hq1
        · exact h
      have heq : composeNewspaper loader ctxOk dots t photo1 photo2 dateText =
          Except.error ("Failed to load image: " ++ photo2.take 50 ++ "...") := by
        unfold composeNewspaper composeNewspaperWith loadImageSafe
        rw [hf, hi1, hq2]
        rfl
      exact ⟨photo2, Or.inr (Or.inr rfl), hq2, heq, fun out hc => by
        rw [heq] at hc
        exact Except.noConfusion hc⟩

theorem C2_witness :
    (noLoader frameSrc = none ∨ noLoader "p1" = none ∨ noLoader "p2" = none) ∧
    ∃ s, (s = frameSrc ∨ s = "p1" ∨ s = "p2") ∧ noLoader s = none ∧
      composeNewspaper noLoader true [] testOffsets "p1" "p2" "d" =
        Except.error ("Failed to load image: " ++ s.take 50 ++ "...") ∧
      ∀ out, composeNewspaper noLoader true [] testOffsets "p1" "p2" "d" ≠
        Except.ok out :=
  ⟨Or.inl rfl,
    C2_load_failure_fails noLoader true [] testOffsets "p1" "p2" "d" (Or.inl rfl)⟩

end Photobooth
